import Mathlib

/-!
Verification of the Hubspace token-lifecycle manager (`TokenService`,
`src/services/token.service.ts`, revision with proactive one-shot refresh,
email OTP and debounced persistence).

Shallow embedding conventions:
* Timestamps are integer milliseconds since the epoch
  (`new Date().getTime()`); `expires_in` / `refresh_expires_in` are integer
  seconds, multiplied by 1000 exactly as in the source.  The source's
  `tokenLifetimeMs * 0.8` is modelled as `tokenLifetimeMs * 4 / 5` (integer
  floor division); on the token-set path the lifetime is always
  `expires_in * 1000`, where this is exactly `expires_in * 800` with no
  rounding at all.
* Every method that reads the clock takes `now : ℤ` explicitly.
* The axios HTTP client is an oracle `Net : Request → NetResult`; an axios
  rejection is `NetResult.err code desc` where `code` models
  `error.response.data.error` and `desc` models
  `error.response.data.error_description` (absent on pure transport errors).
* Timers (`setTimeout` handles) are modelled as the scheduled fire time;
  `clearTimeout` is setting the field to `none`.
* File-system effects are modelled in the state: `storedFile` is the current
  content of `hubspace-tokens.json` (deletes always succeed; the source wraps
  them in try/catch and only logs on failure), and `writeLog` is a ghost list
  of every durable write that actually fired, with its fire time.
* `requests` is a ghost log of every HTTP request issued, in order.
* Logging (`logVerbose`, `logAuthError`, `console.*`) has no state effect and
  is not modelled; the `_verboseLogging` and `_tokensRestored` flags only
  gate log output and are omitted.
-/

namespace Hubspace

/-- Shape of a 200 response from the identity endpoint
(`TokenResponse`: `access_token`, `refresh_token`, `expires_in`,
`refresh_expires_in`, the latter two in seconds). -/
structure TokenResponse where
  access_token : String
  refresh_token : String
  expires_in : ℤ
  refresh_expires_in : ℤ
  deriving DecidableEq, Repr

/-- The JSON object written to `hubspace-tokens.json` by the debounced save.
Fields other than `username` are `Option` because the source writes whatever
is currently in memory (`this._refreshToken`, `this._refreshTokenExpiration?.
toISOString()`, ...), each of which may be `undefined` at fire time. -/
structure WriteRecord where
  username : String
  refreshToken : Option String
  refreshTokenExpiration : Option ℤ
  accessToken : Option String
  accessTokenExpiration : Option ℤ
  deriving DecidableEq, Repr

/-- An HTTP POST to `/protocol/openid-connect/token`, identified by its form
parameters exactly as the source appends them. -/
inductive Request where
  | refreshGrant (clientId : String) (refreshTokenParam : String)
  | passwordGrant (clientId : String) (username : String) (password : String)
      (totp : Option String)
  deriving DecidableEq, Repr

/-- Outcome of one HTTP POST: a resolved response with a status and body, or
an axios rejection carrying the provider's `error` code and
`error_description` when a response body was present (`none`/`none` for a
pure transport failure). -/
inductive NetResult where
  | ok (status : ℕ) (data : TokenResponse)
  | err (errorCode : Option String) (errorDescription : Option String)

/-- Behaviour of the identity endpoint during a run. -/
def Net : Type := Request → NetResult

/-- The mutable fields of `TokenService`, plus the ghost logs described in
the file header. -/
structure TSState where
  accessToken : Option String
  accessTokenExpiration : Option ℤ
  refreshToken : Option String
  refreshTokenExpiration : Option ℤ
  username : String
  password : String
  emailOtp : Option String
  storage : Bool
  storedFile : Option WriteRecord
  refreshTimer : Option ℤ
  saveDebounceTimer : Option ℤ
  requests : List Request
  writeLog : List (ℤ × WriteRecord)
  deriving DecidableEq, Repr

/-- A freshly constructed `TokenService` (all token fields `undefined`,
`_username = ''`, `_password = ''`). -/
def TSState.empty : TSState :=
  { accessToken := none
    accessTokenExpiration := none
    refreshToken := none
    refreshTokenExpiration := none
    username := ""
    password := ""
    emailOtp := none
    storage := false
    storedFile := none
    refreshTimer := none
    saveDebounceTimer := none
    requests := []
    writeLog := [] }

/-- `isAccessTokenExpired`: `!this._accessTokenExpiration ||
this._accessTokenExpiration < new Date()`. -/
def isAccessTokenExpired (now : ℤ) (s : TSState) : Bool :=
  match s.accessTokenExpiration with
  | none => true
  | some e => e < now

/-- `isRefreshTokenExpired`: `!this._refreshTokenExpiration ||
this._refreshTokenExpiration < new Date()`. -/
def isRefreshTokenExpired (now : ℤ) (s : TSState) : Bool :=
  match s.refreshTokenExpiration with
  | none => true
  | some e => e < now

/-- `hasValidToken`: `this._accessToken !== undefined &&
!this.isAccessTokenExpired()`. -/
def hasValidToken (now : ℤ) (s : TSState) : Bool :=
  s.accessToken.isSome && !(isAccessTokenExpired now s)

/-- `clearTokens`: cancels the proactive-refresh timer, unsets the four token
fields, and best-effort deletes `hubspace-tokens.json` when a storage handle
is present. Note that it does NOT touch `_saveDebounceTimer`. -/
def clearTokens (s : TSState) : TSState :=
  { s with
    refreshTimer := none
    accessToken := none
    refreshToken := none
    accessTokenExpiration := none
    refreshTokenExpiration := none
    storedFile := if s.storage then none else s.storedFile }

/-- `scheduleTokenRefresh`: clears any existing timer; if either expiration is
unset does nothing more; otherwise computes `tokenLifetimeMs`, `refreshAt =
now + tokenLifetimeMs * 0.8`, `delayMs = max 0 (refreshAt - now)` and arms a
one-shot timer only when `refreshAt < refreshExpireTime`. -/
def scheduleTokenRefresh (now : ℤ) (s : TSState) : TSState :=
  let s1 := { s with refreshTimer := none }
  match s.accessTokenExpiration, s.refreshTokenExpiration with
  | some accessExpireTime, some refreshExpireTime =>
      let tokenLifetimeMs := accessExpireTime - now
      let refreshAt := now + tokenLifetimeMs * 4 / 5
      let delayMs := max 0 (refreshAt - now)
      if refreshAt < refreshExpireTime then
        { s1 with refreshTimer := some (now + delayMs) }
      else s1
  | _, _ => s1

/-- The `data` object built inside the debounced save callback, from the
fields as they are at fire time. -/
def mkWriteRecord (s : TSState) : WriteRecord :=
  { username := s.username
    refreshToken := s.refreshToken
    refreshTokenExpiration := s.refreshTokenExpiration
    accessToken := s.accessToken
    accessTokenExpiration := s.accessTokenExpiration }

/-- `saveTokensToStorage`: returns immediately when there is no storage handle
or no refresh token; otherwise cancels any pending save and arms the debounce
timer 500 ms out.  The write itself happens in `fireSaveDebounce`. -/
def saveTokensToStorage (now : ℤ) (s : TSState) : TSState :=
  if s.storage && s.refreshToken.isSome then
    { s with saveDebounceTimer := some (now + 500) }
  else s

/-- The debounce callback firing: writes the record built from the CURRENT
fields (the callback re-checks nothing) and records the write in the ghost
log with its scheduled fire time. -/
def fireSaveDebounce (s : TSState) : TSState :=
  match s.saveDebounceTimer with
  | none => s
  | some t =>
      { s with
        saveDebounceTimer := none
        storedFile := some (mkWriteRecord s)
        writeLog := s.writeLog ++ [(t, mkWriteRecord s)] }

/-- `setTokens`: with no response delegates to `clearTokens`; with a response
replaces the four fields (expirations at `now + *_expires_in * 1000`), then
schedules the debounced save, then the proactive refresh, in source order. -/
def setTokens (now : ℤ) (response : Option TokenResponse) (s : TSState) :
    TSState :=
  match response with
  | none => clearTokens s
  | some r =>
      let s1 :=
        { s with
          accessToken := some r.access_token
          refreshToken := some r.refresh_token
          accessTokenExpiration := some (now + r.expires_in * 1000)
          refreshTokenExpiration := some (now + r.refresh_expires_in * 1000) }
      scheduleTokenRefresh now (saveTokensToStorage now s1)

/-- `getTokenFromRefreshToken`: guard on an expired refresh token (which also
clears the session), guard on a missing refresh token, otherwise POST the
refresh grant; a 200 returns the body, a non-200 returns nothing, and a
rejection returns nothing after clearing the session iff the provider error
code is `invalid_grant`. -/
def getTokenFromRefreshToken (now : ℤ) (net : Net) (s : TSState) :
    TSState × Option TokenResponse :=
  if isRefreshTokenExpired now s then (clearTokens s, none)
  else
    match s.refreshToken with
    | none => (s, none)
    | some rt =>
        let req := Request.refreshGrant "hubspace_android" rt
        let s1 := { s with requests := s.requests ++ [req] }
        match net req with
        | .ok status d => (s1, if status = 200 then some d else none)
        | .err code _ =>
            (if code = some "invalid_grant" then clearTokens s1 else s1, none)

/-- `getTokenFromCredentials`: POSTs the password grant with `totp` appended
iff `_emailOtp` is set; a 200 returns the body; every other outcome —
including an `invalid_grant` whose description mentions the OTP — is
swallowed by the bare `catch` and returns nothing. -/
def getTokenFromCredentials (net : Net) (s : TSState) :
    TSState × Option TokenResponse :=
  let req := Request.passwordGrant "hubspace_android" s.username s.password
    s.emailOtp
  let s1 := { s with requests := s.requests ++ [req] }
  match net req with
  | .ok status d => (s1, if status = 200 then some d else none)
  | .err _ _ => (s1, none)

/-- The body of `authenticate` (the async closure), run sequentially: the
short-circuit when nothing is expired, the refresh attempt, the credential
fallback, and the unconditional final `setTokens`.  Returns the new state and
`!!tokenResponse`.  (The `_authenticatingPromise` single-flight gate is a
concurrency concern, modelled separately in `MState` below.) -/
def authenticate (now : ℤ) (net : Net) (s : TSState) : TSState × Bool :=
  if !(isAccessTokenExpired now s) && !(isRefreshTokenExpired now s) then
    (s, true)
  else
    let p1 := getTokenFromRefreshToken now net s
    let p2 :=
      match p1.2 with
      | some r => (p1.1, some r)
      | none => getTokenFromCredentials net p1.1
    (setTokens now p2.2 p2.1, p2.2.isSome)

/-- `getToken`: returns the cached access token when it is valid, otherwise
awaits `authenticate` and returns whatever `_accessToken` then holds.  The
promise always resolves; there is no rejection channel, so the result type is
`Option String` with no error constructor. -/
def getToken (now : ℤ) (net : Net) (s : TSState) : TSState × Option String :=
  if hasValidToken now s then (s, s.accessToken)
  else
    let s1 := (authenticate now net s).1
    (s1, s1.accessToken)

/-- `restoreTokensFromStorage`: nothing without a storage handle or a stored
file; adopts the record's four fields iff the record's username equals the
configured username (the source's comment also promises an expiry check, but
none is performed), then re-arms the proactive refresh.  A stored expiration
that is absent yields an invalid `Date` in the source; no claim below
depends on a malformed record, and we model it as an unset expiration. -/
def restoreTokensFromStorage (now : ℤ) (s : TSState) : TSState :=
  if s.storage then
    match s.storedFile with
    | none => s
    | some data =>
        if data.username = s.username then
          scheduleTokenRefresh now
            { s with
              refreshToken := data.refreshToken
              refreshTokenExpiration := data.refreshTokenExpiration
              accessToken := data.accessToken
              accessTokenExpiration := data.accessTokenExpiration }
        else s
  else s

/-- `login` (the `Init` of the spec): records the credentials, OTP and
storage handle, then synchronously attempts the restore. -/
def login (now : ℤ) (username password : String) (storage : Bool)
    (emailOtp : Option String) (s : TSState) : TSState :=
  restoreTokensFromStorage now
    { s with
      username := username
      password := password
      emailOtp := emailOtp
      storage := storage }

/-- All four in-memory token fields unset. -/
def sessionEmpty (s : TSState) : Prop :=
  s.accessToken = none ∧ s.refreshToken = none ∧
  s.accessTokenExpiration = none ∧ s.refreshTokenExpiration = none

instance (s : TSState) : Decidable (sessionEmpty s) := by
  unfold sessionEmpty; infer_instance

/-!
Sequential event driver.  External operations on the service are replayed in
timestamp order; before each operation, and once at the end of the run, the
debounced-save timer fires if its scheduled time has been reached.  (The
proactive-refresh timer's callback is an HTTP round-trip; it is modelled in
the interleaving machine `MState` below, not in this sequential driver.)
-/

/-- An externally driven operation at some instant: a successful token-set
(the tail of a successful authentication), a session clear, or a `getToken`
call against a given network behaviour. -/
inductive Ev where
  | set (r : TokenResponse)
  | clear
  | callGetToken (net : Net)

/-- Fires the debounced save if one is pending and due at time `t`.  At most
one save is ever pending, and firing never arms another, so one check
suffices. -/
def fireDue (t : ℤ) (s : TSState) : TSState :=
  match s.saveDebounceTimer with
  | some ft => if ft ≤ t then fireSaveDebounce s else s
  | none => s

/-- Applies one timestamped operation, letting a due debounced save fire
first. -/
def applyEv (s : TSState) (e : ℤ × Ev) : TSState :=
  let s1 := fireDue e.1 s
  match e.2 with
  | .set r => setTokens e.1 (some r) s1
  | .clear => clearTokens s1
  | .callGetToken net => (getToken e.1 net s1).1

/-- Replays a timestamp-ordered list of operations and then lets any still
pending debounced save fire by `tEnd`. -/
def runEvents (s : TSState) (evs : List (ℤ × Ev)) (tEnd : ℤ) : TSState :=
  fireDue tEnd (evs.foldl applyEv s)

/-- Last element of a nonempty list given as head and tail. -/
def lastPair {α : Type} (a : α) : List α → α
  | [] => a
  | b :: t => lastPair b t

/-!
Interleaving machine.  JavaScript runs the service single-threaded: code
between two `await`s is atomic, and the suspension points are exactly the two
HTTP POSTs.  `MState` extends the sequential state with the scheduler-visible
control state: whether `_authenticatingPromise` is set, at which `await` the
`authenticate` body is suspended, and whether the proactive-refresh timer's
callback is suspended at its POST.  Actions are the atomic segments.
-/

/-- Suspension point of the `authenticate` body: awaiting the refresh-grant
response, or awaiting the password-grant response. -/
inductive AuthPhase where
  | awaitingRefresh
  | awaitingCreds
  deriving DecidableEq, Repr

/-- Full machine state: service fields plus the clock and the control state
of the two possible suspended computations. -/
structure MState where
  core : TSState
  now : ℤ
  promiseActive : Bool
  authThread : Option AuthPhase
  timerRunning : Bool
  waiters : ℕ
  deriving DecidableEq, Repr

/-- Atomic scheduler actions: let time pass, start a `getToken` call, fire
the due proactive-refresh timer, deliver the HTTP response the
`authenticate` body is awaiting, deliver the response the timer callback is
awaiting. -/
inductive MAct where
  | advance (t : ℤ)
  | callGetToken
  | fireRefreshTimer
  | respondAuth (r : NetResult)
  | respondTimer (r : NetResult)

/-- Appends the refresh-grant request to the ghost log (the point where
`axios.post` is called and the caller suspends). -/
def issueRefreshReq (rt : String) (c : TSState) : TSState :=
  { c with requests := c.requests ++ [Request.refreshGrant "hubspace_android" rt] }

/-- Appends the password-grant request to the ghost log. -/
def issuePasswordReq (c : TSState) : TSState :=
  { c with requests := c.requests ++
      [Request.passwordGrant "hubspace_android" c.username c.password c.emailOtp] }

/-- One atomic action of the machine.  `callGetToken` runs `getToken` up to
its first suspension: a valid cached token returns at once; an active
`_authenticatingPromise` is reused (the caller just awaits it); otherwise the
promise is created and its body runs synchronously to the first `await` (or
to completion through the no-expiry short-circuit, or through the
no-usable-refresh-token guards straight to the password POST).
`fireRefreshTimer` runs the timer callback, which calls
`getTokenFromRefreshToken` DIRECTLY — not `authenticate` — so it does not
consult `promiseActive`.  The respond actions resume the matching suspended
computation with the HTTP outcome and run it to its next suspension or to
completion. -/
def mstep (a : MAct) (m : MState) : MState :=
  match a with
  | .advance t => { m with now := max m.now t }
  | .callGetToken =>
      if hasValidToken m.now m.core then m
      else if m.promiseActive then { m with waiters := m.waiters + 1 }
      else
        if !(isAccessTokenExpired m.now m.core) &&
            !(isRefreshTokenExpired m.now m.core) then
          -- body short-circuits; the promise resolves without suspending
          m
        else if isRefreshTokenExpired m.now m.core then
          -- refresh guard: clear and fall through to the password POST
          { m with
            core := issuePasswordReq (clearTokens m.core)
            promiseActive := true
            authThread := some .awaitingCreds }
        else
          match m.core.refreshToken with
          | none =>
              { m with
                core := issuePasswordReq m.core
                promiseActive := true
                authThread := some .awaitingCreds }
          | some rt =>
              { m with
                core := issueRefreshReq rt m.core
                promiseActive := true
                authThread := some .awaitingRefresh }
  | .fireRefreshTimer =>
      match m.core.refreshTimer with
      | none => m
      | some ft =>
          if ft ≤ m.now ∧ m.timerRunning = false then
            let c0 := { m.core with refreshTimer := none }
            if isRefreshTokenExpired m.now c0 then
              { m with core := clearTokens c0 }
            else
              match c0.refreshToken with
              | none => { m with core := c0 }
              | some rt =>
                  { m with core := issueRefreshReq rt c0, timerRunning := true }
          else m
  | .respondAuth r =>
      match m.authThread with
      | none => m
      | some .awaitingRefresh =>
          let h : TSState × Option TokenResponse :=
            match r with
            | .ok status d => (m.core, if status = 200 then some d else none)
            | .err code _ =>
                (if code = some "invalid_grant" then clearTokens m.core
                 else m.core, none)
          match h.2 with
          | some d =>
              { m with
                core := setTokens m.now (some d) h.1
                authThread := none
                promiseActive := false
                waiters := 0 }
          | none =>
              { m with
                core := issuePasswordReq h.1
                authThread := some .awaitingCreds }
      | some .awaitingCreds =>
          let resp : Option TokenResponse :=
            match r with
            | .ok status d => if status = 200 then some d else none
            | .err _ _ => none
          { m with
            core := setTokens m.now resp m.core
            authThread := none
            promiseActive := false
            waiters := 0 }
  | .respondTimer r =>
      if m.timerRunning then
        let h : TSState × Option TokenResponse :=
          match r with
          | .ok status d => (m.core, if status = 200 then some d else none)
          | .err code _ =>
              (if code = some "invalid_grant" then clearTokens m.core
               else m.core, none)
        match h.2 with
        | some d =>
            { m with core := setTokens m.now (some d) h.1, timerRunning := false }
        | none => { m with core := h.1, timerRunning := false }
      else m

/-- Runs a list of scheduler actions. -/
def mrun (acts : List MAct) (m : MState) : MState :=
  acts.foldl (fun m a => mstep a m) m

/-- Number of authentication network round-trips currently in flight: one if
the `authenticate` body is suspended at a POST, plus one if the timer
callback is. -/
def inflightCount (m : MState) : ℕ :=
  (if m.authThread.isSome then 1 else 0) + (if m.timerRunning then 1 else 0)

/-!  Structural helper lemmas about the operations. -/

/-- `scheduleTokenRefresh` only ever changes the `refreshTimer` field. -/
lemma scheduleTokenRefresh_shape (now : ℤ) (s : TSState) :
    ∃ rt, scheduleTokenRefresh now s = { s with refreshTimer := rt } := by
  unfold scheduleTokenRefresh
  rcases s.accessTokenExpiration with _ | a <;>
    rcases s.refreshTokenExpiration with _ | b
  · exact ⟨none, rfl⟩
  · exact ⟨none, rfl⟩
  · exact ⟨none, rfl⟩
  · dsimp only
    split
    · exact ⟨_, rfl⟩
    · exact ⟨none, rfl⟩

/-- Projections of a successful `setTokens`: the four token fields are fully
replaced, the debounced save is armed when a storage handle is present, and
every other field except the refresh timer is untouched. -/
lemma setTokens_some_proj (now : ℤ) (r : TokenResponse) (s : TSState) :
    (setTokens now (some r) s).accessToken = some r.access_token ∧
    (setTokens now (some r) s).refreshToken = some r.refresh_token ∧
    (setTokens now (some r) s).accessTokenExpiration =
      some (now + r.expires_in * 1000) ∧
    (setTokens now (some r) s).refreshTokenExpiration =
      some (now + r.refresh_expires_in * 1000) ∧
    (setTokens now (some r) s).username = s.username ∧
    (setTokens now (some r) s).password = s.password ∧
    (setTokens now (some r) s).emailOtp = s.emailOtp ∧
    (setTokens now (some r) s).storage = s.storage ∧
    (setTokens now (some r) s).storedFile = s.storedFile ∧
    (setTokens now (some r) s).requests = s.requests ∧
    (setTokens now (some r) s).writeLog = s.writeLog ∧
    (setTokens now (some r) s).saveDebounceTimer =
      (if s.storage then some (now + 500) else s.saveDebounceTimer) := by
  unfold setTokens saveTokensToStorage scheduleTokenRefresh
  cases hst : s.storage <;> dsimp only <;>
    refine ⟨?_, ?_, ?_, ?_, ?_, ?_, ?_, ?_, ?_, ?_, ?_, ?_⟩ <;>
    (repeat' split) <;> simp_all

/-- The state returned by `getTokenFromRefreshToken` is the input state,
possibly cleared, possibly with one refresh-grant request appended (in each
combination that the control flow allows). -/
lemma getTokenFromRefreshToken_shape (now : ℤ) (net : Net) (s : TSState) :
    (getTokenFromRefreshToken now net s).1 = s ∨
    (getTokenFromRefreshToken now net s).1 = clearTokens s ∨
    (∃ req,
      (getTokenFromRefreshToken now net s).1 =
        { s with requests := s.requests ++ [req] } ∨
      (getTokenFromRefreshToken now net s).1 =
        clearTokens { s with requests := s.requests ++ [req] }) := by
  unfold getTokenFromRefreshToken
  split
  · exact Or.inr (Or.inl rfl)
  · split
    · exact Or.inl rfl
    · dsimp only
      split
      · exact Or.inr (Or.inr ⟨_, Or.inl rfl⟩)
      · dsimp only
        split
        · exact Or.inr (Or.inr ⟨_, Or.inr rfl⟩)
        · exact Or.inr (Or.inr ⟨_, Or.inl rfl⟩)

/-- `getTokenFromCredentials` always appends exactly the password-grant
request with the currently stored OTP, and changes nothing else. -/
lemma getTokenFromCredentials_state (net : Net) (s : TSState) :
    (getTokenFromCredentials net s).1 =
      { s with requests := s.requests ++
          [Request.passwordGrant "hubspace_android" s.username s.password
            s.emailOtp] } := by
  unfold getTokenFromCredentials
  dsimp only
  cases hnet : net (Request.passwordGrant "hubspace_android" s.username
      s.password s.emailOtp) with
  | ok st d => rfl
  | err code dsc => rfl

/-- When the `authenticate` body ends with no token from either strategy,
its final `setTokens(undefined)` leaves the session empty and, when a
storage handle is present, the durable record deleted. -/
lemma authenticate_false_clears (now : ℤ) (net : Net) (s : TSState)
    (h : (authenticate now net s).2 = false) :
    sessionEmpty (authenticate now net s).1 ∧
    (s.storage = true → (authenticate now net s).1.storedFile = none) := by
  unfold authenticate at h ⊢
  by_cases h1 : (!(isAccessTokenExpired now s) &&
      !(isRefreshTokenExpired now s)) = true
  · rw [if_pos h1] at h
    exact absurd h (by simp)
  · rw [if_neg h1] at h ⊢
    rcases hr : (getTokenFromRefreshToken now net s).2 with _ | r
    · -- fell through to the credential attempt
      rcases hc : (getTokenFromCredentials net
          (getTokenFromRefreshToken now net s).1).2 with _ | c
      · -- both strategies failed: the final setTokens is a clearTokens
        simp only [hr, hc, setTokens] at h ⊢
        have hstorage :
            (getTokenFromCredentials net
              (getTokenFromRefreshToken now net s).1).1.storage = s.storage := by
          have h2 := getTokenFromCredentials_state net
            (getTokenFromRefreshToken now net s).1
          have h3 := getTokenFromRefreshToken_shape now net s
          rcases h3 with h3 | h3 | ⟨req, h3 | h3⟩ <;> rw [h2, h3] <;> rfl
        refine ⟨⟨rfl, rfl, rfl, rfl⟩, ?_⟩
        intro hs
        show (if _ then none else _) = none
        rw [hstorage, hs, if_pos rfl]
      · simp only [hr, hc] at h
        exact absurd h (by simp [setTokens])
    · simp only [hr] at h
      exact absurd h (by simp [setTokens])

/-- `scheduleTokenRefresh` leaves the access token unchanged. -/
lemma sched_accessToken (now : ℤ) (s : TSState) :
    (scheduleTokenRefresh now s).accessToken = s.accessToken := by
  obtain ⟨rt, h⟩ := scheduleTokenRefresh_shape now s
  rw [h]

/-- `scheduleTokenRefresh` leaves the refresh token unchanged. -/
lemma sched_refreshToken (now : ℤ) (s : TSState) :
    (scheduleTokenRefresh now s).refreshToken = s.refreshToken := by
  obtain ⟨rt, h⟩ := scheduleTokenRefresh_shape now s
  rw [h]

/-- `scheduleTokenRefresh` leaves the access expiry unchanged. -/
lemma sched_accessTokenExpiration (now : ℤ) (s : TSState) :
    (scheduleTokenRefresh now s).accessTokenExpiration =
      s.accessTokenExpiration := by
  obtain ⟨rt, h⟩ := scheduleTokenRefresh_shape now s
  rw [h]

/-- `scheduleTokenRefresh` leaves the refresh expiry unchanged. -/
lemma sched_refreshTokenExpiration (now : ℤ) (s : TSState) :
    (scheduleTokenRefresh now s).refreshTokenExpiration =
      s.refreshTokenExpiration := by
  obtain ⟨rt, h⟩ := scheduleTokenRefresh_shape now s
  rw [h]

/-- `saveTokensToStorage` only ever changes the `saveDebounceTimer` field;
in particular the two expirations are untouched. -/
lemma saveTokensToStorage_expirations (now : ℤ) (s : TSState) :
    (saveTokensToStorage now s).accessTokenExpiration =
      s.accessTokenExpiration ∧
    (saveTokensToStorage now s).refreshTokenExpiration =
      s.refreshTokenExpiration := by
  unfold saveTokensToStorage
  split <;> exact ⟨rfl, rfl⟩

/-- Value of the refresh timer armed by `scheduleTokenRefresh` on a state
with both expirations set. -/
lemma scheduleTokenRefresh_timer (now : ℤ) (s : TSState) (a b : ℤ)
    (ha : s.accessTokenExpiration = some a)
    (hb : s.refreshTokenExpiration = some b) :
    (scheduleTokenRefresh now s).refreshTimer =
      if now + (a - now) * 4 / 5 < b
      then some (now + max 0 (now + (a - now) * 4 / 5 - now))
      else none := by
  unfold scheduleTokenRefresh
  rw [ha, hb]
  dsimp only
  split <;> rfl

/-!  Concrete inputs used by witnesses and counterexamples. -/

/-- A network in which every request fails at the transport level (no
provider response at all). -/
def netTransportFail : Net := fun _ => NetResult.err none none

/-- A freshly initialised service with credentials but no storage handle. -/
def sCred : TSState :=
  { TSState.empty with username := "u", password := "p" }

/-- Credentials plus a storage handle, empty session. -/
def sStoreCred : TSState :=
  { TSState.empty with username := "u", password := "p", storage := true }

/-!  Claim C1. -/

/-- C1 counterexample: with an empty session and a network in which both
strategies fail, `getToken` resolves successfully with no token — its result
type `Option String` (mirroring the source's `Promise<string | undefined>`,
which never rejects: every failure is caught) has no failure constructor, so
the claimed distinguishable `AuthenticationFailed` failure result does not
exist; the call returns the successful value `none`. -/
theorem getToken_failure_returns_plain_none :
    (getToken 0 netTransportFail sCred).2 = none ∧
    (authenticate 0 netTransportFail sCred).2 = false := by decide

/-- C1 (amended): if the cached access token is valid, `getToken` returns it
immediately, leaving the state (including the request log) untouched;
otherwise it runs the authentication procedure, and when neither strategy
yields tokens it resolves successfully with no token (`undefined`), leaving
the session cleared — there is no distinguishable failure result. -/
theorem getToken_cache_and_failure_behaviour (now : ℤ) (net : Net)
    (s : TSState) :
    (hasValidToken now s = true → getToken now net s = (s, s.accessToken)) ∧
    (hasValidToken now s = false → (authenticate now net s).2 = false →
      (getToken now net s).2 = none ∧ sessionEmpty (getToken now net s).1) := by
  constructor
  · intro h
    simp [getToken, h]
  · intro h1 h2
    have hs : (getToken now net s).1 = (authenticate now net s).1 := by
      simp [getToken, h1]
    have h2' : (getToken now net s).2 =
        (authenticate now net s).1.accessToken := by
      simp [getToken, h1]
    have hempty := (authenticate_false_clears now net s h2).1
    exact ⟨by rw [h2']; exact hempty.1, by rw [hs]; exact hempty⟩

/-- A state holding a valid-looking cached token, for the witness. -/
def sCached : TSState :=
  { TSState.empty with
    username := "u"
    password := "p"
    accessToken := some "tok"
    accessTokenExpiration := some 5000
    refreshToken := some "ref"
    refreshTokenExpiration := some 9000 }

/-- Witness for C1: both hypotheses are satisfiable — a valid cached token
is returned untouched, and a doubly-failing authentication leaves `none` and
an empty session. -/
theorem getToken_cache_and_failure_behaviour_witness :
    (hasValidToken 0 sCached = true ∧
      getToken 0 netTransportFail sCached = (sCached, sCached.accessToken)) ∧
    (hasValidToken 0 sCred = false ∧
      (authenticate 0 netTransportFail sCred).2 = false ∧
      ((getToken 0 netTransportFail sCred).2 = none ∧
        sessionEmpty (getToken 0 netTransportFail sCred).1)) :=
  ⟨⟨by decide,
    (getToken_cache_and_failure_behaviour 0 netTransportFail sCached).1
      (by decide)⟩,
   ⟨by decide, by decide,
    (getToken_cache_and_failure_behaviour 0 netTransportFail sCred).2
      (by decide) (by decide)⟩⟩

/-!  Claim C10. -/

/-- C10: whenever the authentication procedure ends with no token from
either strategy — for any network behaviour, including one in which both
failures are transient transport errors — the final `setTokens(undefined)`
leaves the in-memory session empty and, whenever a storage handle is
present, the durable token record deleted (the source deletes it inside
`clearTokens`, logging but not propagating a deletion failure); and a
`getToken` call with an invalid cached token lands in exactly that state. -/
theorem authentication_failure_erases_durable_record (now : ℤ) (net : Net)
    (s : TSState) (h : (authenticate now net s).2 = false) :
    sessionEmpty (authenticate now net s).1 ∧
    (s.storage = true → (authenticate now net s).1.storedFile = none) ∧
    (hasValidToken now s = false →
      (getToken now net s).1 = (authenticate now net s).1) := by
  obtain ⟨h1, h2⟩ := authenticate_false_clears now net s h
  refine ⟨h1, h2, ?_⟩
  intro hv
  simp [getToken, hv]

/-- A previously persisted session whose tokens have expired, for the C10
witness: the durable record obtained earlier is still on disk. -/
def sRestoredExpired : TSState :=
  { TSState.empty with
    username := "u"
    password := "p"
    storage := true
    storedFile := some
      { username := "u"
        refreshToken := some "rt"
        refreshTokenExpiration := some 10
        accessToken := some "at"
        accessTokenExpiration := some 10 }
    accessToken := some "at"
    accessTokenExpiration := some 10
    refreshToken := some "rt"
    refreshTokenExpiration := some 10 }

/-- Witness for C10: a single failing authentication during a total network
outage erases both the in-memory session and the persisted record. -/
theorem authentication_failure_erases_durable_record_witness :
    (authenticate 1000 netTransportFail sRestoredExpired).2 = false ∧
    (sessionEmpty (authenticate 1000 netTransportFail sRestoredExpired).1 ∧
      (sRestoredExpired.storage = true →
        (authenticate 1000 netTransportFail sRestoredExpired).1.storedFile =
          none) ∧
      (hasValidToken 1000 sRestoredExpired = false →
        (getToken 1000 netTransportFail sRestoredExpired).1 =
          (authenticate 1000 netTransportFail sRestoredExpired).1)) :=
  ⟨by decide,
   authentication_failure_erases_durable_record 1000 netTransportFail
     sRestoredExpired (by decide)⟩

/-!  Claim C4. -/

/-- C4: on every successful token-set with nonnegative access lifetime
`L = expires_in * 1000` milliseconds, the previously armed timer is
discarded and exactly one one-shot timer is armed to fire at `now + 0.8·L`
(`0.8·L` is exactly `expires_in * 800`, with no division rounding), if and
only if that fire time is strictly before the new refresh expiry (otherwise
no timer is armed); and a session clear cancels the timer. -/
theorem proactive_refresh_scheduling (now : ℤ) (r : TokenResponse)
    (s : TSState) (h : 0 ≤ r.expires_in) :
    ((setTokens now (some r) s).refreshTimer =
      if now + r.expires_in * 1000 * 4 / 5 <
          now + r.refresh_expires_in * 1000
      then some (now + r.expires_in * 1000 * 4 / 5)
      else none) ∧
    r.expires_in * 1000 * 4 / 5 = r.expires_in * 800 ∧
    (clearTokens s).refreshTimer = none := by
  refine ⟨?_, by omega, rfl⟩
  unfold setTokens
  dsimp only
  have ha := (saveTokensToStorage_expirations now
    { s with
      accessToken := some r.access_token
      refreshToken := some r.refresh_token
      accessTokenExpiration := some (now + r.expires_in * 1000)
      refreshTokenExpiration := some (now + r.refresh_expires_in * 1000) })
  rw [scheduleTokenRefresh_timer now _ (now + r.expires_in * 1000)
    (now + r.refresh_expires_in * 1000) (by rw [ha.1]) (by rw [ha.2])]
  have e1 : now + r.expires_in * 1000 - now = r.expires_in * 1000 := by
    omega
  rw [e1]
  have e2 : now + r.expires_in * 1000 * 4 / 5 - now =
      r.expires_in * 1000 * 4 / 5 := by omega
  rw [e2]
  have hnn : (0 : ℤ) ≤ r.expires_in * 1000 * 4 / 5 := by omega
  rw [max_eq_right hnn]

/-- A token response with a 10-second access lifetime and a 100-second
refresh lifetime, for witnesses. -/
def respTenHundred : TokenResponse :=
  { access_token := "a"
    refresh_token := "r"
    expires_in := 10
    refresh_expires_in := 100 }

/-- Witness for C4: at `now = 0` with lifetimes 10 s / 100 s the timer is
armed for `t = 8000 ms`, and a clear cancels it. -/
theorem proactive_refresh_scheduling_witness :
    (0 : ℤ) ≤ respTenHundred.expires_in ∧
    (((setTokens 0 (some respTenHundred) TSState.empty).refreshTimer =
      if (0 : ℤ) + respTenHundred.expires_in * 1000 * 4 / 5 <
          0 + respTenHundred.refresh_expires_in * 1000
      then some ((0 : ℤ) + respTenHundred.expires_in * 1000 * 4 / 5)
      else none) ∧
    respTenHundred.expires_in * 1000 * 4 / 5 =
      respTenHundred.expires_in * 800 ∧
    (clearTokens TSState.empty).refreshTimer = none) :=
  ⟨by norm_num [respTenHundred],
   proactive_refresh_scheduling 0 respTenHundred TSState.empty
     (by norm_num [respTenHundred])⟩

/-!  Claim C7. -/

/-- C7: `restoreTokensFromStorage`, run from `login`, adopts a stored record
into the in-memory session exactly when the record's username equals the
configured username; on a mismatch all four session fields are left exactly
as they were (in particular, an empty session remains empty after Init). -/
theorem restore_username_filter (now : ℤ) (u p : String) (otp : Option String)
    (rec : WriteRecord) (s : TSState) (hfile : s.storedFile = some rec) :
    (rec.username = u →
      (login now u p true otp s).accessToken = rec.accessToken ∧
      (login now u p true otp s).refreshToken = rec.refreshToken ∧
      (login now u p true otp s).accessTokenExpiration =
        rec.accessTokenExpiration ∧
      (login now u p true otp s).refreshTokenExpiration =
        rec.refreshTokenExpiration) ∧
    (rec.username ≠ u →
      (login now u p true otp s).accessToken = s.accessToken ∧
      (login now u p true otp s).refreshToken = s.refreshToken ∧
      (login now u p true otp s).accessTokenExpiration =
        s.accessTokenExpiration ∧
      (login now u p true otp s).refreshTokenExpiration =
        s.refreshTokenExpiration) := by
  unfold login restoreTokensFromStorage
  dsimp only
  rw [if_pos rfl, hfile]
  dsimp only
  by_cases hu : rec.username = u
  · rw [if_pos hu]
    rw [sched_accessToken, sched_refreshToken, sched_accessTokenExpiration,
      sched_refreshTokenExpiration]
    exact ⟨fun _ => ⟨rfl, rfl, rfl, rfl⟩, fun hne => absurd hu hne⟩
  · rw [if_neg hu]
    exact ⟨fun heq => absurd heq hu, fun _ => ⟨rfl, rfl, rfl, rfl⟩⟩

/-!  Claim C6. -/

/-- `fireDue` does nothing when no debounced save is pending or the pending
one is not yet due. -/
lemma fireDue_not_due (t : ℤ) (s : TSState)
    (h : s.saveDebounceTimer = none ∨
      ∃ d, s.saveDebounceTimer = some d ∧ t < d) :
    fireDue t s = s := by
  unfold fireDue
  rcases h with h | ⟨d, h1, h2⟩
  · rw [h]
  · rw [h1]
    dsimp only
    rw [if_neg (by omega)]

/-- Folding a chain of token-sets, each arriving strictly before the
previous debounce fires, never fires a write: the write log is untouched,
the debounce pending at the end belongs to the last set, and the session
fields are those of the last set. -/
lemma debounce_fold (rest : List (ℤ × TokenResponse)) :
    ∀ (t : ℤ) (r : TokenResponse) (s : TSState),
      s.storage = true →
      (s.saveDebounceTimer = none ∨
        ∃ d, s.saveDebounceTimer = some d ∧ t < d) →
      List.Chain (fun x y => x.1 < y.1 ∧ y.1 < x.1 + 500) (t, r) rest →
      (List.foldl applyEv s
          (((t, r) :: rest).map (fun p => (p.1, Ev.set p.2)))).writeLog =
        s.writeLog ∧
      (List.foldl applyEv s
          (((t, r) :: rest).map (fun p => (p.1, Ev.set p.2)))
        ).saveDebounceTimer = some ((lastPair (t, r) rest).1 + 500) ∧
      (List.foldl applyEv s
          (((t, r) :: rest).map (fun p => (p.1, Ev.set p.2)))).username =
        s.username ∧
      (List.foldl applyEv s
          (((t, r) :: rest).map (fun p => (p.1, Ev.set p.2)))).storage =
        true ∧
      (List.foldl applyEv s
          (((t, r) :: rest).map (fun p => (p.1, Ev.set p.2)))).accessToken =
        some (lastPair (t, r) rest).2.access_token ∧
      (List.foldl applyEv s
          (((t, r) :: rest).map (fun p => (p.1, Ev.set p.2)))).refreshToken =
        some (lastPair (t, r) rest).2.refresh_token ∧
      (List.foldl applyEv s
          (((t, r) :: rest).map (fun p => (p.1, Ev.set p.2)))
        ).accessTokenExpiration =
        some ((lastPair (t, r) rest).1 +
          (lastPair (t, r) rest).2.expires_in * 1000) ∧
      (List.foldl applyEv s
          (((t, r) :: rest).map (fun p => (p.1, Ev.set p.2)))
        ).refreshTokenExpiration =
        some ((lastPair (t, r) rest).1 +
          (lastPair (t, r) rest).2.refresh_expires_in * 1000) := by
  induction rest with
  | nil =>
      intro t r s hst hdeb hch
      simp only [List.map, List.foldl]
      have happ : applyEv s (t, Ev.set r) =
          setTokens t (some r) (fireDue t s) := rfl
      rw [happ, fireDue_not_due t s hdeb]
      obtain ⟨p1, p2, p3, p4, p5, p6, p7, p8, p9, p10, p11, p12⟩ :=
        setTokens_some_proj t r s
      rw [show lastPair (t, r) ([] : List (ℤ × TokenResponse)) = (t, r)
        from rfl]
      refine ⟨p11, ?_, p5, by rw [p8, hst], p1, p2, p3, p4⟩
      rw [p12, hst, if_pos rfl]
  | cons b rest ih =>
      intro t r s hst hdeb hch
      obtain ⟨tb, rb⟩ := b
      cases hch with
      | cons hab hch2 =>
          simp only [List.map, List.foldl_cons]
          have happ : applyEv s (t, Ev.set r) =
              setTokens t (some r) (fireDue t s) := rfl
          obtain ⟨p1, p2, p3, p4, p5, p6, p7, p8, p9, p10, p11, p12⟩ :=
            setTokens_some_proj t r (fireDue t s)
          have hfd := fireDue_not_due t s hdeb
          have hst1 : (applyEv s (t, Ev.set r)).storage = true := by
            rw [happ, p8, hfd, hst]
          have hdeb1 : (applyEv s (t, Ev.set r)).saveDebounceTimer = none ∨
              ∃ d, (applyEv s (t, Ev.set r)).saveDebounceTimer = some d ∧
                tb < d := by
            refine Or.inr ⟨t + 500, ?_, ?_⟩
            · rw [happ, p12, hfd, hst, if_pos rfl]
            · have := hab.2
              omega
          have := ih tb rb (applyEv s (t, Ev.set r)) hst1 hdeb1 hch2
          simp only [List.map, List.foldl_cons] at this
          obtain ⟨q1, q2, q3, q4, q5, q6, q7, q8⟩ := this
          rw [show lastPair (t, r) ((tb, rb) :: rest) = lastPair (tb, rb) rest
            from rfl]
          refine ⟨?_, q2, ?_, q4, q5, q6, q7, q8⟩
          · rw [q1, happ, p11, hfd]
          · rw [q3, happ, p5, hfd]

/-- C6: for every `K ≥ 1` (a first set plus any chained tail), a burst of
`K` successful token-sets in which each arrives strictly within 500 ms of
the previous one produces exactly ONE durable write: it fires 500 ms after
the K-th set and contains precisely the session state of the K-th (last)
set — every earlier pending write was cancelled and superseded. -/
theorem debounced_writes_coalesce (t : ℤ) (r : TokenResponse)
    (rest : List (ℤ × TokenResponse)) (s : TSState) (tEnd : ℤ)
    (hst : s.storage = true)
    (hdeb : s.saveDebounceTimer = none)
    (hlog : s.writeLog = [])
    (hch : List.Chain (fun x y => x.1 < y.1 ∧ y.1 < x.1 + 500) (t, r) rest)
    (hEnd : (lastPair (t, r) rest).1 + 500 ≤ tEnd) :
    (runEvents s (((t, r) :: rest).map (fun p => (p.1, Ev.set p.2)))
        tEnd).writeLog =
      [((lastPair (t, r) rest).1 + 500,
        { username := s.username
          refreshToken := some (lastPair (t, r) rest).2.refresh_token
          refreshTokenExpiration := some ((lastPair (t, r) rest).1 +
            (lastPair (t, r) rest).2.refresh_expires_in * 1000)
          accessToken := some (lastPair (t, r) rest).2.access_token
          accessTokenExpiration := some ((lastPair (t, r) rest).1 +
            (lastPair (t, r) rest).2.expires_in * 1000) })] := by
  obtain ⟨q1, q2, q3, q4, q5, q6, q7, q8⟩ :=
    debounce_fold rest t r s hst (Or.inl hdeb) hch
  unfold runEvents fireDue
  rw [q2]
  dsimp only
  rw [if_pos hEnd]
  unfold fireSaveDebounce
  rw [q2]
  dsimp only
  unfold mkWriteRecord
  rw [q1, q3, q5, q6, q7, q8, hlog]
  rfl

/-- Two token responses distinguishable by their payloads. -/
def respOne : TokenResponse :=
  { access_token := "a1"
    refresh_token := "r1"
    expires_in := 3600
    refresh_expires_in := 7200 }

/-- A second, newer token response. -/
def respTwo : TokenResponse :=
  { access_token := "a2"
    refresh_token := "r2"
    expires_in := 1800
    refresh_expires_in := 9000 }

/-- Witness for C6: two token-sets 100 ms apart produce exactly one write,
at `t = 600`, containing the second set's state. -/
theorem debounced_writes_coalesce_witness :
    sStoreCred.storage = true ∧
    sStoreCred.saveDebounceTimer = none ∧
    sStoreCred.writeLog = [] ∧
    List.Chain (fun x y : ℤ × TokenResponse => x.1 < y.1 ∧ y.1 < x.1 + 500)
      (0, respOne) [(100, respTwo)] ∧
    (lastPair ((0 : ℤ), respOne) [(100, respTwo)]).1 + 500 ≤ 700 ∧
    (runEvents sStoreCred
        ((((0 : ℤ), respOne) :: [(100, respTwo)]).map
          (fun p => (p.1, Ev.set p.2))) 700).writeLog =
      [((lastPair ((0 : ℤ), respOne) [(100, respTwo)]).1 + 500,
        { username := sStoreCred.username
          refreshToken :=
            some (lastPair ((0 : ℤ), respOne) [(100, respTwo)]).2.refresh_token
          refreshTokenExpiration :=
            some ((lastPair ((0 : ℤ), respOne) [(100, respTwo)]).1 +
              (lastPair ((0 : ℤ), respOne)
                [(100, respTwo)]).2.refresh_expires_in * 1000)
          accessToken :=
            some (lastPair ((0 : ℤ), respOne) [(100, respTwo)]).2.access_token
          accessTokenExpiration :=
            some ((lastPair ((0 : ℤ), respOne) [(100, respTwo)]).1 +
              (lastPair ((0 : ℤ), respOne)
                [(100, respTwo)]).2.expires_in * 1000) })] :=
  by
  refine ⟨by decide, by decide, by decide, ?_, by decide, ?_⟩
  · exact List.Chain.cons (by constructor <;> decide) List.Chain.nil
  · exact debounced_writes_coalesce 0 respOne [(100, respTwo)] sStoreCred
      700 (by decide) (by decide) (by decide)
      (List.Chain.cons (by constructor <;> decide) List.Chain.nil)
      (by decide)

/-!  Claim C3. -/

/-- A well-formed durable record for user `"u"` whose expirations (at 3 ms
and 5 ms past the epoch) are long past. -/
def recExpired : WriteRecord :=
  { username := "u"
    refreshToken := some "rt"
    refreshTokenExpiration := some 5
    accessToken := some "at"
    accessTokenExpiration := some 3 }

/-- C3 (code bug evaluated at the failing input): initialising at time
`now = 1000` with a matching stored record whose expirations 3 and 5 are
already past, the restore adopts it — the code checks only the username,
although its own comment reads "Only restore if tokens are for the same user
and not expired" — yielding a reachable steady state in which all four
session fields are set but both expiries are strictly in the past, violating
the claimed coherence invariant. -/
theorem restore_adopts_expired_record :
    (login 1000 "u" "p" true none
      { TSState.empty with storedFile := some recExpired }).accessToken =
        some "at" ∧
    (login 1000 "u" "p" true none
      { TSState.empty with storedFile := some recExpired }).refreshToken =
        some "rt" ∧
    (login 1000 "u" "p" true none
      { TSState.empty with storedFile := some recExpired
        }).accessTokenExpiration = some 3 ∧
    (login 1000 "u" "p" true none
      { TSState.empty with storedFile := some recExpired
        }).refreshTokenExpiration = some 5 ∧
    (3 : ℤ) < 1000 ∧ (5 : ℤ) < 1000 := by
  refine ⟨?_, ?_, ?_, ?_, by norm_num, by norm_num⟩ <;> decide

/-!  Claim C8. -/

/-- A network in which the password grant is rejected with `invalid_grant`
and an error description referencing the one-time-code mechanism. -/
def netOtpRequired : Net := fun req =>
  match req with
  | .passwordGrant _ _ _ _ =>
      NetResult.err (some "invalid_grant") (some "Missing totp")
  | _ => NetResult.err none none

/-- The same network except that the rejection carries no OTP-related
description (plain wrong credentials). -/
def netWrongCreds : Net := fun req =>
  match req with
  | .passwordGrant _ _ _ _ => NetResult.err (some "invalid_grant") none
  | _ => NetResult.err none none

/-- An empty session initialised with credentials, an email OTP and a
storage handle. -/
def sOtp : TSState :=
  { TSState.empty with
    username := "u"
    password := "p"
    emailOtp := some "123456"
    storage := true }

/-- C8 counterexample: an `invalid_grant` whose description references the
one-time code produces exactly the same outcome as a plain
wrong-credentials rejection — `getToken` resolves with no token through the
generic path (`getTokenFromCredentials` swallows every rejection without
inspecting it), so no distinct `OtpRequired` failure exists. -/
theorem otp_rejection_indistinguishable :
    getToken 0 netOtpRequired sOtp = getToken 0 netWrongCreds sOtp ∧
    (getToken 0 netOtpRequired sOtp).2 = none := by decide

/-- C8 (amended): when the password grant is rejected with `invalid_grant`
referencing the one-time code (any description), `getToken` from an empty
session resolves with no token via the same generic failure path as any
other credential rejection — no distinct `OtpRequired` error is produced —
while the session stays empty and no durable write occurs (no write fires
and none is left armed). -/
theorem otp_rejection_generic_failure (now : ℤ) (net : Net) (s : TSState)
    (desc : Option String)
    (hempty : sessionEmpty s)
    (hfile : s.storedFile = none)
    (hlog : s.writeLog = [])
    (hdeb : s.saveDebounceTimer = none)
    (hnet : net (Request.passwordGrant "hubspace_android" s.username
        s.password s.emailOtp) = NetResult.err (some "invalid_grant") desc) :
    (getToken now net s).2 = none ∧
    sessionEmpty (getToken now net s).1 ∧
    (getToken now net s).1.writeLog = [] ∧
    (getToken now net s).1.saveDebounceTimer = none ∧
    (getToken now net s).1.storedFile = none := by
  obtain ⟨h1, h2, h3, h4⟩ := hempty
  have hv : hasValidToken now s = false := by
    simp [hasValidToken, h1]
  have hae : isAccessTokenExpired now s = true := by
    simp [isAccessTokenExpired, h3]
  have hre : isRefreshTokenExpired now s = true := by
    simp [isRefreshTokenExpired, h4]
  simp only [getToken, hv, Bool.false_eq_true, if_false]
  unfold authenticate
  simp only [hae, hre, Bool.not_true, Bool.false_and, Bool.false_eq_true,
    if_false]
  unfold getTokenFromRefreshToken
  simp only [hre, if_true]
  unfold getTokenFromCredentials
  have hcu : (clearTokens s).username = s.username := rfl
  have hcp : (clearTokens s).password = s.password := rfl
  have hco : (clearTokens s).emailOtp = s.emailOtp := rfl
  simp only [hcu, hcp, hco, hnet]
  simp only [setTokens, clearTokens, hfile, hlog, hdeb]
  cases s.storage <;> simp_all [sessionEmpty]

/-- Witness for C8: the concrete OTP-pending rejection satisfies every
hypothesis and yields the generic no-token outcome. -/
theorem otp_rejection_generic_failure_witness :
    sessionEmpty sOtp ∧ sOtp.storedFile = none ∧ sOtp.writeLog = [] ∧
    sOtp.saveDebounceTimer = none ∧
    netOtpRequired (Request.passwordGrant "hubspace_android" sOtp.username
      sOtp.password sOtp.emailOtp) =
      NetResult.err (some "invalid_grant") (some "Missing totp") ∧
    ((getToken 0 netOtpRequired sOtp).2 = none ∧
      sessionEmpty (getToken 0 netOtpRequired sOtp).1 ∧
      (getToken 0 netOtpRequired sOtp).1.writeLog = [] ∧
      (getToken 0 netOtpRequired sOtp).1.saveDebounceTimer = none ∧
      (getToken 0 netOtpRequired sOtp).1.storedFile = none) :=
  ⟨by decide, rfl, rfl, rfl, rfl,
   otp_rejection_generic_failure 0 netOtpRequired sOtp
     (some "Missing totp") (by decide) rfl rfl rfl rfl⟩

/-!  Claim C9. -/

/-- A network in which refresh grants fail at transport level and password
grants succeed (with an immediately-expiring token pair, so that a second
`getToken` call must authenticate again). -/
def netCredsOnly : Net := fun req =>
  match req with
  | .passwordGrant _ _ _ _ =>
      NetResult.ok 200
        { access_token := "a"
          refresh_token := "r"
          expires_in := 0
          refresh_expires_in := 0 }
  | _ => NetResult.err none none

/-- The service as initialised with an email OTP and no storage handle. -/
def sWithOtp : TSState :=
  { TSState.empty with
    username := "u"
    password := "p"
    emailOtp := some "123456" }

/-- C9 counterexample: the first `getToken` performs a successful
credential-grant login carrying the one-time code, yet the second
`getToken` call issues another password grant still carrying the same code —
`_emailOtp` is never cleared, so the code is not consumed after its first
successful use. -/
theorem otp_not_consumed_after_success :
    (getToken 0 netCredsOnly sWithOtp).2 = some "a" ∧
    ((getToken 100 netCredsOnly
        (getToken 0 netCredsOnly sWithOtp).1).1).requests =
      [Request.passwordGrant "hubspace_android" "u" "p" (some "123456"),
       Request.passwordGrant "hubspace_android" "u" "p" (some "123456")] := by
  decide

/-- C9 (amended): the one-time code is never persisted — the durable record
is a function of the five token/username fields only, independent of the
stored OTP — but it is also never consumed: no operation clears
`_emailOtp`, and every credential-grant request includes the currently
stored code. -/
theorem otp_never_persisted_never_consumed (now : ℤ) (net : Net)
    (s : TSState) (c : String) (h : s.emailOtp = some c) :
    (getTokenFromCredentials net s).1.requests =
      s.requests ++
        [Request.passwordGrant "hubspace_android" s.username s.password
          (some c)] ∧
    (getTokenFromCredentials net s).1.emailOtp = some c ∧
    (getToken now net s).1.emailOtp = some c ∧
    (∀ c2 : Option String,
      mkWriteRecord { s with emailOtp := c2 } = mkWriteRecord s) := by
  have hcred := getTokenFromCredentials_state net s
  refine ⟨by rw [hcred, h], by rw [hcred, h], ?_, fun c2 => rfl⟩
  rw [← h]
  unfold getToken
  split
  · rfl
  · unfold authenticate
    split
    · rfl
    · dsimp only
      have hotp1 :
          ((getTokenFromRefreshToken now net s).1).emailOtp = s.emailOtp := by
        rcases getTokenFromRefreshToken_shape now net s with
          h3 | h3 | ⟨req, h3 | h3⟩ <;> rw [h3] <;> rfl
      rcases hr : (getTokenFromRefreshToken now net s).2 with _ | r
      · simp only [hr]
        rcases hc : (getTokenFromCredentials net
            (getTokenFromRefreshToken now net s).1).2 with _ | c3
        · simp only [hc, setTokens]
          show (clearTokens _).emailOtp = _
          have := getTokenFromCredentials_state net
            (getTokenFromRefreshToken now net s).1
          rw [show (clearTokens (getTokenFromCredentials net
              (getTokenFromRefreshToken now net s).1).1).emailOtp =
              ((getTokenFromCredentials net
                (getTokenFromRefreshToken now net s).1).1).emailOtp from rfl,
            this]
          show ((getTokenFromRefreshToken now net s).1).emailOtp = _
          rw [hotp1]
        · obtain ⟨-, -, -, -, -, -, hotp, -⟩ := setTokens_some_proj now c3
            (getTokenFromCredentials net
              (getTokenFromRefreshToken now net s).1).1
          rw [hotp]
          have := getTokenFromCredentials_state net
            (getTokenFromRefreshToken now net s).1
          rw [this]
          show ((getTokenFromRefreshToken now net s).1).emailOtp = _
          rw [hotp1]
      · simp only [hr]
        obtain ⟨-, -, -, -, -, -, hotp, -⟩ := setTokens_some_proj now r
          (getTokenFromRefreshToken now net s).1
        rw [hotp, hotp1]

/-- Witness for C9: with the stored code `"123456"`, the credential request
carries it, nothing clears it, and the persisted record ignores it. -/
theorem otp_never_persisted_never_consumed_witness :
    sWithOtp.emailOtp = some "123456" ∧
    ((getTokenFromCredentials netCredsOnly sWithOtp).1.requests =
      sWithOtp.requests ++
        [Request.passwordGrant "hubspace_android" sWithOtp.username
          sWithOtp.password (some "123456")] ∧
    (getTokenFromCredentials netCredsOnly sWithOtp).1.emailOtp =
      some "123456" ∧
    (getToken 0 netCredsOnly sWithOtp).1.emailOtp = some "123456" ∧
    (∀ c2 : Option String,
      mkWriteRecord { sWithOtp with emailOtp := c2 } =
        mkWriteRecord sWithOtp)) :=
  ⟨rfl, otp_never_persisted_never_consumed 0 netCredsOnly sWithOtp
    "123456" rfl⟩

/-!  Claim C2. -/

/-- A token pair with a 1-second access lifetime and a long refresh
lifetime. -/
def respShortLong : TokenResponse :=
  { access_token := "a"
    refresh_token := "r"
    expires_in := 1
    refresh_expires_in := 1000000 }

/-- A freshly initialised interleaving-machine state. -/
def mInit : MState :=
  { core := { TSState.empty with username := "u", password := "p" }
    now := 0
    promiseActive := false
    authThread := none
    timerRunning := false
    waiters := 0 }

/-- The interleaving that defeats the single-flight invariant: log in
successfully at `t = 0` (arming the proactive timer for `t = 800`), let the
token expire, start a `getToken` whose refresh POST is in flight, then let
the timer fire. -/
def actsTwoFlights : List MAct :=
  [MAct.callGetToken,
   MAct.respondAuth (NetResult.ok 200 respShortLong),
   MAct.advance 2000,
   MAct.callGetToken,
   MAct.fireRefreshTimer]

/-- C2 counterexample: a reachable interleaving with TWO authentication
round-trips in flight at once — the proactive-refresh timer's callback calls
`getTokenFromRefreshToken` directly, without consulting
`_authenticatingPromise`, so firing while a `getToken`-initiated procedure
is awaiting its response issues a second concurrent request. -/
theorem timer_bypasses_gate_two_roundtrips :
    inflightCount (mrun actsTwoFlights mInit) = 2 ∧
    (mrun actsTwoFlights mInit).authThread = some AuthPhase.awaitingRefresh ∧
    (mrun actsTwoFlights mInit).timerRunning = true := by decide

/-- C2 (amended): a `getToken` call arriving while `_authenticatingPromise`
is set merely awaits the shared pending result — it changes no service
state, spawns no second procedure, and issues no request — so concurrent
`getToken` calls alone never create two round-trips; the proactive timer,
however, bypasses this gate (see the counterexample). -/
theorem getToken_single_flight_gate (m : MState)
    (h : m.promiseActive = true) :
    (mstep MAct.callGetToken m).core = m.core ∧
    (mstep MAct.callGetToken m).authThread = m.authThread ∧
    (mstep MAct.callGetToken m).timerRunning = m.timerRunning ∧
    (mstep MAct.callGetToken m).promiseActive = true ∧
    inflightCount (mstep MAct.callGetToken m) = inflightCount m := by
  unfold mstep
  cases hv : hasValidToken m.now m.core <;> simp [hv, h, inflightCount]

/-- A machine state with an authentication procedure pending at its
credential POST. -/
def mPending : MState :=
  { core := { TSState.empty with username := "u", password := "p" }
    now := 0
    promiseActive := true
    authThread := some AuthPhase.awaitingCreds
    timerRunning := false
    waiters := 0 }

/-- Witness for C2 (amended): a caller arriving during the pending procedure
leaves the machine unchanged apart from joining the waiters. -/
theorem getToken_single_flight_gate_witness :
    mPending.promiseActive = true ∧
    ((mstep MAct.callGetToken mPending).core = mPending.core ∧
      (mstep MAct.callGetToken mPending).authThread = mPending.authThread ∧
      (mstep MAct.callGetToken mPending).timerRunning =
        mPending.timerRunning ∧
      (mstep MAct.callGetToken mPending).promiseActive = true ∧
      inflightCount (mstep MAct.callGetToken mPending) =
        inflightCount mPending) :=
  ⟨rfl, getToken_single_flight_gate mPending rfl⟩

/-!  Claim C5. -/

/-- A token pair that expires immediately (both lifetimes zero). -/
def respZero : TokenResponse :=
  { access_token := "a"
    refresh_token := "r"
    expires_in := 0
    refresh_expires_in := 0 }

/-- A network whose password grant succeeds once with `respZero`. -/
def netLoginZero : Net := fun req =>
  match req with
  | .passwordGrant _ _ _ _ => NetResult.ok 200 respZero
  | _ => NetResult.err none none

/-- A network that rejects everything with `invalid_grant`. -/
def netInvalidGrant : Net := fun _ =>
  NetResult.err (some "invalid_grant") none

/-- The C5 failing execution: a successful login at `t = 0` arms the 500 ms
debounced write; a failing `getToken` at `t = 100` clears the session
(deleting the stored file); the pending debounce is NOT cancelled. -/
def evClearRace : List (ℤ × Ev) :=
  [(0, Ev.callGetToken netLoginZero),
   (100, Ev.callGetToken netInvalidGrant)]

/-- C5 (code bug evaluated at the failing input): after the clear at
`t = 100` the session is empty yet the debounce armed at `t = 0` is still
pending, and at `t = 500` it fires and durably writes a record with NO
refresh token (and no other token field) — `clearTokens` cancels only the
proactive-refresh timer, never `_saveDebounceTimer`, and the callback
re-checks nothing at fire time. -/
theorem cleared_state_persisted_by_pending_debounce :
    sessionEmpty (List.foldl applyEv sStoreCred evClearRace) ∧
    (List.foldl applyEv sStoreCred evClearRace).saveDebounceTimer =
      some 500 ∧
    (runEvents sStoreCred evClearRace 600).writeLog =
      [(500,
        { username := "u"
          refreshToken := none
          refreshTokenExpiration := none
          accessToken := none
          accessTokenExpiration := none })] := by decide

/-- A durable record owned by account `"a"`. -/
def recUserA : WriteRecord :=
  { username := "a"
    refreshToken := some "rt"
    refreshTokenExpiration := some 99999
    accessToken := some "at"
    accessTokenExpiration := some 88888 }

/-- Witness for C7: initialising for user `"b"` with a stored record for
user `"a"` leaves the (empty) session untouched. -/
theorem restore_username_filter_witness :
    ({ TSState.empty with storedFile := some recUserA } : TSState).storedFile =
      some recUserA ∧
    ((recUserA.username = "b" →
      (login 0 "b" "p" true none
        { TSState.empty with storedFile := some recUserA }).accessToken =
        recUserA.accessToken ∧
      (login 0 "b" "p" true none
        { TSState.empty with storedFile := some recUserA }).refreshToken =
        recUserA.refreshToken ∧
      (login 0 "b" "p" true none
        { TSState.empty with storedFile := some recUserA
          }).accessTokenExpiration = recUserA.accessTokenExpiration ∧
      (login 0 "b" "p" true none
        { TSState.empty with storedFile := some recUserA
          }).refreshTokenExpiration = recUserA.refreshTokenExpiration) ∧
    (recUserA.username ≠ "b" →
      (login 0 "b" "p" true none
        { TSState.empty with storedFile := some recUserA }).accessToken =
        ({ TSState.empty with storedFile := some recUserA } :
          TSState).accessToken ∧
      (login 0 "b" "p" true none
        { TSState.empty with storedFile := some recUserA }).refreshToken =
        ({ TSState.empty with storedFile := some recUserA } :
          TSState).refreshToken ∧
      (login 0 "b" "p" true none
        { TSState.empty with storedFile := some recUserA
          }).accessTokenExpiration =
        ({ TSState.empty with storedFile := some recUserA } :
          TSState).accessTokenExpiration ∧
      (login 0 "b" "p" true none
        { TSState.empty with storedFile := some recUserA
          }).refreshTokenExpiration =
        ({ TSState.empty with storedFile := some recUserA } :
          TSState).refreshTokenExpiration)) :=
  ⟨rfl,
   restore_username_filter 0 "b" "p" none recUserA
     { TSState.empty with storedFile := some recUserA } rfl⟩

end Hubspace
